import Mathlib

/-!
# Verification of `mlx_vlm/generate.py`

A shallow embedding of `src/build/lib/mlx_vlm/generate.py` together with
proofs about its sampling rule, its autoregressive generation loop, its
input preparation and its image-loading / chat-template glue.

Modelling choices:
* Logits are vectors of rationals (`List ℚ`); the script's float tensors are
  modelled over an exact ordered field since the claims only use ordering.
* A model's logits output `logits` has shape positions x vocabulary, so it is
  a `List (List ℚ)`; `logits[:, -1, :]` takes the last row (batch size is 1).
* `mx.random.categorical` draws from a pseudo-random stream; it is modelled
  as an abstract function from scaled logits and a generator state to a
  sampled token id and the advanced state.
* Token ids are `Int` (the nanoLlava sentinel id `-200` is negative).
* The opaque model objects (`model`, `model.language_model`, the processor,
  the image processor) are abstract function parameters, as the script only
  calls them.
-/

namespace MlxVlm

/-! ## Sampling (`sample`, lines 97-101)

`mx.argmax(logits, axis=-1)` returns the index of the maximum entry of a
vector; on ties the first occurrence wins (NumPy-style semantics, which MLX
follows). -/

/-- Maximum entry of a logits vector (`0` for the empty vector, which the
script never produces). -/
def listMax : List ℚ → ℚ
  | [] => 0
  | [x] => x
  | x :: y :: xs => max x (listMax (y :: xs))

/-- Models `mx.argmax` on a vector: the index of the maximum entry, ties
broken by first occurrence. -/
def mx_argmax : List ℚ → Nat
  | [] => 0
  | [_] => 0
  | x :: y :: xs => if x < listMax (y :: xs) then mx_argmax (y :: xs) + 1 else 0

/-- `sample(logits, temperature)` (lines 97-101): at temperature `0` take the
arg-max index, otherwise draw from `mx.random.categorical` applied to
`logits * (1 / temperature)`.  `categorical` is the abstract random draw; it
consumes and returns the generator state `rng`. -/
def sample {Rng : Type} (categorical : List ℚ → Rng → Int × Rng)
    (logits : List ℚ) (temperature : ℚ) (rng : Rng) : Int × Rng :=
  if temperature = 0 then ((mx_argmax logits : Int), rng)
  else categorical (logits.map fun z => z * (1 / temperature)) rng

/-! ## The generation loop (`generate_text`, lines 104-120) -/

/-- The two model callables of `generate_text` plus the random source.
`full` is `model(input_ids, pixel_values)` (prefill); `language_model` is
`model.language_model(y[None], cache=cache)` (decode step): both return the
logits for every position together with the cache. -/
structure ModelFuns (Cache Pix Rng : Type) where
  full : List Int → Pix → List (List ℚ) × Cache
  language_model : Int → Cache → List (List ℚ) × Cache
  categorical : List ℚ → Rng → Int × Rng

/-- The processor facet used by `generate_text`. -/
structure Processor where
  eos_token_id : Int
  decode : List Int → String

/-- `logits[:, -1, :]`: the last position's logits row (batch size 1). -/
def lastRow (logits : List (List ℚ)) : List ℚ := logits.getLast?.getD []

/-- One iteration of the decode loop, recorded for the loop invariants:
the arguments `language_model` was invoked with, what it returned, and the
token sampled from its last-position logits. -/
structure DecodeCall (Cache : Type) where
  tokenArg : Int
  cacheArg : Cache
  logitsOut : List (List ℚ)
  cacheOut : Cache
  sampled : Int
  deriving DecidableEq

/-- The `for n in range(max_tokens - 1)` loop of `generate_text`
(lines 111-118), with `fuel = max(max_tokens - 1, 0)` iterations remaining,
`y` the most recently sampled token and `cache` the cache returned by the
previous model call.  Returns the tokens the loop appends together with the
trace of `language_model` invocations it performs. -/
def decode_loop {Cache Pix Rng : Type} (M : ModelFuns Cache Pix Rng)
    (eosId : Int) (temperature : ℚ) :
    Nat → Int → Cache → Rng → List Int × List (DecodeCall Cache)
  | 0, _, _, _ => ([], [])
  | fuel + 1, y, cache, rng =>
    let step := M.language_model y cache
    let logits := lastRow step.1
    let s := sample M.categorical logits temperature rng
    let call : DecodeCall Cache := ⟨y, cache, step.1, step.2, s.1⟩
    if s.1 = eosId then ([], [call])
    else
      let rest := decode_loop M eosId temperature fuel s.1 step.2 s.2
      (s.1 :: rest.1, call :: rest.2)

/-- The token sampled at the prefill step (lines 106-109): run the full model
on the prompt and image, take the last position's logits and sample. -/
def prefill_token {Cache Pix Rng : Type} (M : ModelFuns Cache Pix Rng)
    (input_ids : List Int) (pixel_values : Pix) (temperature : ℚ)
    (rng : Rng) : Int :=
  (sample M.categorical (lastRow (M.full input_ids pixel_values).1) temperature rng).1

/-- `generate_text` keeping the token list and the decode-call trace: the
prefill-sampled token followed by the tokens the decode loop appends, and the
loop's `language_model` invocations. -/
def generate_run {Cache Pix Rng : Type} (M : ModelFuns Cache Pix Rng)
    (P : Processor) (input_ids : List Int) (pixel_values : Pix)
    (max_tokens : Int) (temperature : ℚ) (rng : Rng) :
    List Int × List (DecodeCall Cache) :=
  let pre := M.full input_ids pixel_values
  let s := sample M.categorical (lastRow pre.1) temperature rng
  let rest :=
    decode_loop M P.eos_token_id temperature (max_tokens - 1).toNat s.1 pre.2 s.2
  (s.1 :: rest.1, rest.2)

/-- The `tokens` list `generate_text` accumulates. -/
def generated_tokens {Cache Pix Rng : Type} (M : ModelFuns Cache Pix Rng)
    (P : Processor) (input_ids : List Int) (pixel_values : Pix)
    (max_tokens : Int) (temperature : ℚ) (rng : Rng) : List Int :=
  (generate_run M P input_ids pixel_values max_tokens temperature rng).1

/-- The decode-step invocations `generate_text` performs. -/
def decode_calls {Cache Pix Rng : Type} (M : ModelFuns Cache Pix Rng)
    (P : Processor) (input_ids : List Int) (pixel_values : Pix)
    (max_tokens : Int) (temperature : ℚ) (rng : Rng) : List (DecodeCall Cache) :=
  (generate_run M P input_ids pixel_values max_tokens temperature rng).2

/-- `generate_text` (lines 104-120): decode the accumulated tokens. -/
def generate_text {Cache Pix Rng : Type} (M : ModelFuns Cache Pix Rng)
    (P : Processor) (input_ids : List Int) (pixel_values : Pix)
    (max_tokens : Int) (temperature : ℚ) (rng : Rng) : String :=
  P.decode (generated_tokens M P input_ids pixel_values max_tokens temperature rng)

/-! ## Input preparation (`prepare_inputs`, lines 71-85)

Python's `prompt.split("<image>")` splits the prompt on every non-overlapping
occurrence of the marker, scanning left to right; `splitGo` implements that
scan on the character list (`skip` counts marker characters still to be
consumed after a match). -/

/-- Left-to-right scan of `str.split(sep)` for a nonempty separator. -/
def splitGo (sep : List Char) : List Char → Nat → List Char → List (List Char)
  | [], _, acc => [acc.reverse]
  | _ :: cs, skip + 1, acc => splitGo sep cs skip acc
  | c :: cs, 0, acc =>
    if sep.isPrefixOf (c :: cs) then
      acc.reverse :: splitGo sep cs (sep.length - 1) []
    else
      splitGo sep cs 0 (c :: acc)

/-- Python `s.split(sep)` for a nonempty separator. -/
def str_split (s sep : String) : List String :=
  (splitGo sep.data s.data 0 []).map String.mk

/-- `prepare_inputs` (lines 71-85), for an already-loaded image.  `processor`
is `chunk ↦ processor(chunk).input_ids`, `image_processor` is
`image ↦ mx.array(np.expand_dims(image_processor.preprocess([image])[0], 0))`,
and `joint` is the generic-processor path
`processor(prompt, image, return_tensors="np")` yielding the token ids and
pixel tensor.  Under `MODEL_TYPE == "nanoLlava"` the prompt is split on
`"<image>"`; indexing `text_chunks[1]` raises `IndexError` when the prompt
holds no marker, modelled as `none`. -/
def prepare_inputs {Img Pix : Type} (model_type : String)
    (processor : String → List Int) (image_processor : Img → Pix)
    (joint : String → Img → List Int × Pix)
    (image : Img) (prompt : String) : Option (List Int × Pix) :=
  if model_type = "nanoLlava" then
    match (str_split prompt "<image>").map processor with
    | c0 :: c1 :: _ => some (c0 ++ [-200] ++ c1, image_processor image)
    | _ => none
  else
    some (joint prompt image)

/-! ## Image loading (`load_image`, lines 47-68) -/

/-- The external collaborators of `load_image`.  `requests_get` models
`requests.get(..., stream=True)` followed by `response.raise_for_status()`:
an error is either a failed request or an HTTP error status.
`image_open_raw` models `Image.open(response.raw)` and `image_open_file`
models `Image.open(path)`; `is_file` models `Path(...).is_file()`. -/
structure ImageEnv (Raw Img : Type) where
  requests_get : String → Except String Raw
  image_open_raw : Raw → Except String Img
  is_file : String → Bool
  image_open_file : String → Except String Img

/-- The `image_source.startswith(("http://", "https://"))` test. -/
def isUrl (s : String) : Bool := s.startsWith "http://" || s.startsWith "https://"

/-- `load_image` (lines 47-68).  In the URL branch every exception — from the
request, the status check or the image decode — is caught and re-raised as
`ValueError`; in the file branch a decode failure is re-raised as
`ValueError`; otherwise a `ValueError` reports that the source is neither a
URL nor an existing file. -/
def load_image {Raw Img : Type} (env : ImageEnv Raw Img)
    (image_source : String) : Except String Img :=
  if isUrl image_source then
    match env.requests_get image_source with
    | .error e =>
      .error ("Failed to load image from URL: " ++ image_source ++ " with error " ++ e)
    | .ok raw =>
      match env.image_open_raw raw with
      | .error e =>
        .error ("Failed to load image from URL: " ++ image_source ++ " with error " ++ e)
      | .ok img => .ok img
  else if env.is_file image_source then
    match env.image_open_file image_source with
    | .error e =>
      .error ("Failed to load image " ++ image_source ++ " with error: " ++ e)
    | .ok img => .ok img
  else
    .error ("The image " ++ image_source ++ " must be a valid URL or existing file.")

/-- `true` exactly on `Except.error`. -/
def isError {ε α : Type} : Except ε α → Bool
  | .error _ => true
  | .ok _ => false

/-! ## Chat-template selection in `main` (lines 129-144) -/

/-- The duck-typed processor attributes `main` inspects:
`"chat_template" in processor.__dict__` with `processor.apply_chat_template`,
and `"tokenizer" in processor.__dict__` with
`processor.tokenizer.apply_chat_template` (both with `tokenize=False`,
`add_generation_prompt=True`). -/
structure ChatProcessor where
  has_chat_template : Bool
  apply_chat_template : String → String
  has_tokenizer : Bool
  tokenizer_apply_chat_template : String → String

/-- The template-selection step of `main` (lines 129-142).  In the final
`else` branch the source evaluates `ValueError(...)` as a bare expression:
the exception object is constructed but never raised, so the branch returns
normally with the prompt unchanged. -/
def format_prompt (p : ChatProcessor) (prompt : String) : Except String String :=
  if p.has_chat_template then .ok (p.apply_chat_template prompt)
  else if p.has_tokenizer then .ok (p.tokenizer_apply_chat_template prompt)
  else .ok prompt

/-- `main`'s pipeline from the decoded prompt to `prepare_inputs`
(lines 129-144): format the prompt, then prepare the inputs with it; a raised
formatting error would abort before `prepare_inputs`. -/
def main_prepare {Img Pix : Type} (p : ChatProcessor) (model_type : String)
    (processor : String → List Int) (image_processor : Img → Pix)
    (joint : String → Img → List Int × Pix)
    (image : Img) (prompt : String) : Option (List Int × Pix) :=
  match format_prompt p prompt with
  | .error _ => none
  | .ok fp => prepare_inputs model_type processor image_processor joint image fp

/-! ## A concrete instantiation

A small executable model used to evaluate the embedding at concrete inputs:
the cache is a call counter, the prefill logits end in `[1, 2]` (arg-max
index 1) and every decode step yields logits `[3, 1]` (arg-max index 0). -/

/-- Demo model: prefill samples token `1`, every decode step samples `0`. -/
def demoModel : ModelFuns Nat Unit Unit where
  full := fun _ _ => ([[0, 1], [1, 2]], 0)
  language_model := fun _ c => ([[3, 1]], c + 1)
  categorical := fun _ r => (0, r)

/-- Demo processor whose end-of-sequence id is never sampled. -/
def demoProcessor : Processor where
  eos_token_id := 9
  decode := fun _ => "demo"

/-- Demo processor whose end-of-sequence id is the prefill-sampled token. -/
def demoProcessorEosPrefill : Processor where
  eos_token_id := 1
  decode := fun _ => "demo"

/-- Demo processor whose end-of-sequence id is the decode-sampled token. -/
def demoProcessorEosLoop : Processor where
  eos_token_id := 0
  decode := fun _ => "demo"

/-- Demo tokenizer: one token per chunk, its character count. -/
def demoTokenize (s : String) : List Int := [(s.length : Int)]

/-- Demo image preprocessor. -/
def demoImageProc : Unit → Unit := fun _ => ()

/-- Demo generic joint processor. -/
def demoJoint : String → Unit → List Int × Unit := fun _ _ => ([], ())

/-- Demo image environment: no file exists and every request fails. -/
def demoImageEnv : ImageEnv Unit Unit where
  requests_get := fun _ => .error "connection refused"
  image_open_raw := fun _ => .ok ()
  is_file := fun _ => false
  image_open_file := fun _ => .ok ()

/-- Demo processor object exposing neither `chat_template` nor `tokenizer`. -/
def demoChatProcessor : ChatProcessor where
  has_chat_template := false
  apply_chat_template := id
  has_tokenizer := false
  tokenizer_apply_chat_template := id

/-! ## Properties of the arg-max sampler -/

theorem listMax_cons (x : ℚ) (l : List ℚ) (h : l ≠ []) :
    listMax (x :: l) = max x (listMax l) := by
  cases l with
  | nil => exact absurd rfl h
  | cons y ys => rfl

theorem mx_argmax_cons (x : ℚ) (l : List ℚ) (h : l ≠ []) :
    mx_argmax (x :: l) = if x < listMax l then mx_argmax l + 1 else 0 := by
  cases l with
  | nil => exact absurd rfl h
  | cons y ys => rfl

theorem mx_argmax_lt_length (l : List ℚ) (h : l ≠ []) : mx_argmax l < l.length := by
  induction l with
  | nil => exact absurd rfl h
  | cons x xs ih =>
    cases xs with
    | nil => simp [mx_argmax]
    | cons y ys =>
      rw [mx_argmax_cons x (y :: ys) (List.cons_ne_nil y ys)]
      split
      · simpa [Nat.succ_lt_succ_iff] using ih (List.cons_ne_nil y ys)
      · simp

theorem le_listMax (l : List ℚ) (x : ℚ) (hx : x ∈ l) : x ≤ listMax l := by
  induction l with
  | nil => cases hx
  | cons a as ih =>
    cases as with
    | nil =>
      rcases List.mem_singleton.mp hx with rfl
      simp [listMax]
    | cons b bs =>
      rw [listMax_cons a (b :: bs) (List.cons_ne_nil b bs)]
      rcases List.mem_cons.mp hx with rfl | hmem
      · exact le_max_left _ _
      · exact le_trans (ih hmem) (le_max_right _ _)

theorem getD_mx_argmax (l : List ℚ) (h : l ≠ []) :
    l.getD (mx_argmax l) 0 = listMax l := by
  induction l with
  | nil => exact absurd rfl h
  | cons x xs ih =>
    cases xs with
    | nil => simp [mx_argmax, listMax]
    | cons y ys =>
      rw [mx_argmax_cons x (y :: ys) (List.cons_ne_nil y ys),
        listMax_cons x (y :: ys) (List.cons_ne_nil y ys)]
      by_cases hc : x < listMax (y :: ys)
      · rw [if_pos hc]
        simpa using (ih (List.cons_ne_nil y ys)).trans (max_eq_right hc.le).symm
      · rw [if_neg hc]
        simpa using (max_eq_left (not_lt.mp hc)).symm

theorem getD_lt_of_lt_mx_argmax (l : List ℚ) (j : Nat) (hj : j < mx_argmax l) :
    l.getD j 0 < listMax l := by
  induction l generalizing j with
  | nil => simp [mx_argmax] at hj
  | cons x xs ih =>
    cases xs with
    | nil => simp [mx_argmax] at hj
    | cons y ys =>
      rw [mx_argmax_cons x (y :: ys) (List.cons_ne_nil y ys)] at hj
      rw [listMax_cons x (y :: ys) (List.cons_ne_nil y ys)]
      by_cases hc : x < listMax (y :: ys)
      · rw [if_pos hc] at hj
        cases j with
        | zero => simpa using lt_of_lt_of_le hc (le_max_right x _)
        | succ k =>
          have hk : k < mx_argmax (y :: ys) := Nat.lt_of_succ_lt_succ hj
          simpa using lt_of_lt_of_le (ih k hk) (le_max_right x _)
      · rw [if_neg hc] at hj
        exact absurd hj (Nat.not_lt_zero j)

/-! ## Properties of the decode loop -/

theorem decode_loop_length_le {Cache Pix Rng : Type} (M : ModelFuns Cache Pix Rng)
    (eosId : Int) (temperature : ℚ) :
    ∀ (fuel : Nat) (y : Int) (cache : Cache) (rng : Rng),
      (decode_loop M eosId temperature fuel y cache rng).1.length ≤ fuel := by
  intro fuel
  induction fuel with
  | zero => intro y cache rng; simp [decode_loop]
  | succ n ih =>
    intro y cache rng
    simp only [decode_loop]
    split
    · simp
    · simpa [Nat.succ_le_succ_iff] using ih _ _ _

theorem decode_loop_ne_nil {Cache Pix Rng : Type} (M : ModelFuns Cache Pix Rng)
    (eosId : Int) (temperature : ℚ) (fuel : Nat) (y : Int) (cache : Cache)
    (rng : Rng) (h : fuel ≠ 0) :
    (decode_loop M eosId temperature fuel y cache rng).2 ≠ [] := by
  cases fuel with
  | zero => exact absurd rfl h
  | succ n =>
    simp only [decode_loop]
    split
    · simp
    · simp

/-- Shape of one loop run: either no sampled token hit the end-of-sequence id
and every sampled token was appended, or the trace ends with the one call
that sampled it and exactly the earlier calls' tokens were appended. -/
theorem decode_loop_shape {Cache Pix Rng : Type} (M : ModelFuns Cache Pix Rng)
    (eosId : Int) (temperature : ℚ) :
    ∀ (fuel : Nat) (y : Int) (cache : Cache) (rng : Rng),
      ((∀ c ∈ (decode_loop M eosId temperature fuel y cache rng).2,
          c.sampled ≠ eosId) ∧
        (decode_loop M eosId temperature fuel y cache rng).1
          = (decode_loop M eosId temperature fuel y cache rng).2.map DecodeCall.sampled)
      ∨ (∃ cs cl,
          (decode_loop M eosId temperature fuel y cache rng).2 = cs ++ [cl] ∧
          cl.sampled = eosId ∧ (∀ c ∈ cs, c.sampled ≠ eosId) ∧
          (decode_loop M eosId temperature fuel y cache rng).1
            = cs.map DecodeCall.sampled) := by
  intro fuel
  induction fuel with
  | zero => intro y cache rng; left; simp [decode_loop]
  | succ n ih =>
    intro y cache rng
    simp only [decode_loop]
    by_cases hs :
        (sample M.categorical (lastRow (M.language_model y cache).1) temperature rng).1
          = eosId
    · rw [if_pos hs]
      right
      exact ⟨[], ⟨y, cache, (M.language_model y cache).1, (M.language_model y cache).2,
        (sample M.categorical (lastRow (M.language_model y cache).1)
          temperature rng).1⟩, by simp, hs, by simp, by simp⟩
    · rw [if_neg hs]
      rcases ih (sample M.categorical (lastRow (M.language_model y cache).1)
            temperature rng).1 (M.language_model y cache).2
            (sample M.categorical (lastRow (M.language_model y cache).1)
              temperature rng).2 with
        ⟨hall, hts⟩ | ⟨cs, cl, hcs, hcl, hall, hts⟩
      · left
        constructor
        · intro c hc
          rcases List.mem_cons.mp hc with rfl | hmem
          · exact hs
          · exact hall c hmem
        · simpa using hts
      · right
        refine ⟨⟨y, cache, (M.language_model y cache).1, (M.language_model y cache).2,
            (sample M.categorical (lastRow (M.language_model y cache).1)
              temperature rng).1⟩ :: cs, cl, by simp [hcs], hcl, ?_, by simpa using hts⟩
        intro c hc
        rcases List.mem_cons.mp hc with rfl | hmem
        · exact hs
        · exact hall c hmem

/-- Each recorded decode call evaluated `language_model` at its recorded
arguments, the first call's arguments are the loop's entry token and cache,
and consecutive calls are chained: each is invoked with the token sampled by
and the cache returned from the previous call. -/
theorem decode_loop_calls {Cache Pix Rng : Type} (M : ModelFuns Cache Pix Rng)
    (eosId : Int) (temperature : ℚ) :
    ∀ (fuel : Nat) (y : Int) (cache : Cache) (rng : Rng),
      (∀ c ∈ (decode_loop M eosId temperature fuel y cache rng).2,
          (c.logitsOut, c.cacheOut) = M.language_model c.tokenArg c.cacheArg) ∧
      (∀ c₀, (decode_loop M eosId temperature fuel y cache rng).2.head? = some c₀ →
          c₀.tokenArg = y ∧ c₀.cacheArg = cache) ∧
      List.Chain' (fun a b => b.tokenArg = a.sampled ∧ b.cacheArg = a.cacheOut)
        (decode_loop M eosId temperature fuel y cache rng).2 := by
  intro fuel
  induction fuel with
  | zero => intro y cache rng; refine ⟨by simp [decode_loop], by simp [decode_loop], by simp [decode_loop]⟩
  | succ n ih =>
    intro y cache rng
    simp only [decode_loop]
    by_cases hs :
        (sample M.categorical (lastRow (M.language_model y cache).1) temperature rng).1
          = eosId
    · rw [if_pos hs]
      refine ⟨?_, by simp, by simp⟩
      intro c hc
      rcases List.mem_singleton.mp hc with rfl
      simp
    · rw [if_neg hs]
      rcases ih (sample M.categorical (lastRow (M.language_model y cache).1)
            temperature rng).1 (M.language_model y cache).2
            (sample M.categorical (lastRow (M.language_model y cache).1)
              temperature rng).2 with ⟨heval, hhead, hchain⟩
      refine ⟨?_, by simp, ?_⟩
      · intro c hc
        rcases List.mem_cons.mp hc with rfl | hmem
        · simp
        · exact heval c hmem
      · refine List.chain'_cons'.mpr ⟨?_, hchain⟩
        intro b hb
        have hb' := hhead b (by simpa using hb)
        exact ⟨hb'.1, hb'.2⟩

/-! ## Claim theorems about the generation loop -/

/-- **C1**: for every positive `max_tokens`, `generate_text` produces between
1 and `max_tokens` generated tokens inclusive; for `max_tokens = 1` it still
performs the prefill step, produces exactly the one prefill-sampled token,
and runs no decode-step iterations. -/
theorem generate_text_token_budget {Cache Pix Rng : Type}
    (M : ModelFuns Cache Pix Rng) (P : Processor) (input_ids : List Int)
    (pixel_values : Pix) (max_tokens : Int) (temperature : ℚ) (rng : Rng)
    (h : 0 < max_tokens) :
    1 ≤ (generated_tokens M P input_ids pixel_values max_tokens temperature rng).length ∧
    ((generated_tokens M P input_ids pixel_values max_tokens temperature rng).length : Int)
        ≤ max_tokens ∧
    (max_tokens = 1 →
      generated_tokens M P input_ids pixel_values max_tokens temperature rng
          = [prefill_token M input_ids pixel_values temperature rng] ∧
      decode_calls M P input_ids pixel_values max_tokens temperature rng = []) := by
  refine ⟨?_, ?_, ?_⟩
  · simp [generated_tokens, generate_run]
  · have hlen := decode_loop_length_le M P.eos_token_id temperature
      (max_tokens - 1).toNat
      (sample M.categorical (lastRow (M.full input_ids pixel_values).1) temperature rng).1
      (M.full input_ids pixel_values).2
      (sample M.categorical (lastRow (M.full input_ids pixel_values).1) temperature rng).2
    simp only [generated_tokens, generate_run, List.length_cons]
    omega
  · intro h1
    subst h1
    constructor
    · simp [generated_tokens, generate_run, prefill_token, decode_loop]
    · simp [decode_calls, generate_run, decode_loop]

/-- **C1** witness at `max_tokens = 3`. -/
theorem generate_text_token_budget_witness :
    (0 : Int) < 3 ∧
    (1 ≤ (generated_tokens demoModel demoProcessor [1] () 3 0 ()).length ∧
      ((generated_tokens demoModel demoProcessor [1] () 3 0 ()).length : Int) ≤ 3 ∧
      ((3 : Int) = 1 →
        generated_tokens demoModel demoProcessor [1] () 3 0 ()
            = [prefill_token demoModel [1] () 0 ()] ∧
        decode_calls demoModel demoProcessor [1] () 3 0 () = [])) :=
  ⟨by decide, generate_text_token_budget demoModel demoProcessor [1] () 3 0 () (by decide)⟩

/-- **C10**: for every `max_tokens ≤ 0`, `generate_text` still performs the
prefill step, samples and appends one token, and runs zero decode
iterations, so a budget of 0 or less is exceeded by one token. -/
theorem generate_text_nonpositive_budget {Cache Pix Rng : Type}
    (M : ModelFuns Cache Pix Rng) (P : Processor) (input_ids : List Int)
    (pixel_values : Pix) (max_tokens : Int) (temperature : ℚ) (rng : Rng)
    (h : max_tokens ≤ 0) :
    generated_tokens M P input_ids pixel_values max_tokens temperature rng
        = [prefill_token M input_ids pixel_values temperature rng] ∧
    decode_calls M P input_ids pixel_values max_tokens temperature rng = [] := by
  have h0 : (max_tokens - 1).toNat = 0 := Int.toNat_of_nonpos (by omega)
  constructor
  · simp [generated_tokens, generate_run, prefill_token, h0, decode_loop]
  · simp [decode_calls, generate_run, h0, decode_loop]

/-- **C10** witness at `max_tokens = 0`. -/
theorem generate_text_nonpositive_budget_witness :
    (0 : Int) ≤ 0 ∧
    (generated_tokens demoModel demoProcessor [1] () 0 0 ()
        = [prefill_token demoModel [1] () 0 ()] ∧
      decode_calls demoModel demoProcessor [1] () 0 0 () = []) :=
  ⟨by decide, generate_text_nonpositive_budget demoModel demoProcessor [1] () 0 0 () (by decide)⟩

/-- **C2** (counterexample): with the demo model the end-of-sequence id is
the token sampled at the prefill step, yet the output has two tokens and the
decode loop runs one iteration — the result is neither a single-token output
nor is the decode loop skipped. -/
theorem generate_text_eos_at_prefill_cex :
    prefill_token demoModel [1] () 0 () = demoProcessorEosPrefill.eos_token_id ∧
    (generated_tokens demoModel demoProcessorEosPrefill [1] () 2 0 ()).length = 2 ∧
    (decode_calls demoModel demoProcessorEosPrefill [1] () 2 0 ()).length = 1 :=
  ⟨by decide, by decide, by decide⟩

/-- **C2** (amended): the prefill-sampled token is appended to the output
even when it equals the end-of-sequence id, and for `max_tokens ≥ 2` the
decode loop still runs; the end-of-sequence check applies only to tokens
sampled inside the decode loop. -/
theorem generate_text_eos_at_prefill {Cache Pix Rng : Type}
    (M : ModelFuns Cache Pix Rng) (P : Processor) (input_ids : List Int)
    (pixel_values : Pix) (max_tokens : Int) (temperature : ℚ) (rng : Rng)
    (h : prefill_token M input_ids pixel_values temperature rng = P.eos_token_id) :
    (generated_tokens M P input_ids pixel_values max_tokens temperature rng).head?
        = some P.eos_token_id ∧
    (2 ≤ max_tokens →
      decode_calls M P input_ids pixel_values max_tokens temperature rng ≠ []) := by
  constructor
  · simp only [generated_tokens, generate_run, List.head?_cons]
    simp only [prefill_token] at h
    rw [h]
  · intro h2
    simp only [decode_calls, generate_run]
    exact decode_loop_ne_nil M P.eos_token_id temperature _ _ _ _ (by omega)

/-- **C2** (amended) witness at `max_tokens = 2`. -/
theorem generate_text_eos_at_prefill_witness :
    prefill_token demoModel [1] () 0 () = demoProcessorEosPrefill.eos_token_id ∧
    ((generated_tokens demoModel demoProcessorEosPrefill [1] () 2 0 ()).head?
        = some demoProcessorEosPrefill.eos_token_id ∧
      (2 ≤ (2 : Int) →
        decode_calls demoModel demoProcessorEosPrefill [1] () 2 0 () ≠ [])) :=
  ⟨by decide,
    generate_text_eos_at_prefill demoModel demoProcessorEosPrefill [1] () 2 0 () (by decide)⟩

/-- **C3**: whenever a decode-loop iteration samples the end-of-sequence id,
that iteration is the last one (the loop terminates immediately), the token
is not appended — the appended loop tokens are exactly the sampled tokens of
the earlier iterations, none of which is the end-of-sequence id — and the
returned text decodes exactly the accumulated token list. -/
theorem generate_text_eos_in_loop {Cache Pix Rng : Type}
    (M : ModelFuns Cache Pix Rng) (P : Processor) (input_ids : List Int)
    (pixel_values : Pix) (max_tokens : Int) (temperature : ℚ) (rng : Rng) :
    ∀ c ∈ decode_calls M P input_ids pixel_values max_tokens temperature rng,
      c.sampled = P.eos_token_id →
      (decode_calls M P input_ids pixel_values max_tokens temperature rng).getLast?
          = some c ∧
      generated_tokens M P input_ids pixel_values max_tokens temperature rng
          = prefill_token M input_ids pixel_values temperature rng
            :: ((decode_calls M P input_ids pixel_values max_tokens
                temperature rng).dropLast.map DecodeCall.sampled) ∧
      P.eos_token_id ∉
          ((decode_calls M P input_ids pixel_values max_tokens
            temperature rng).dropLast.map DecodeCall.sampled) ∧
      generate_text M P input_ids pixel_values max_tokens temperature rng
          = P.decode (generated_tokens M P input_ids pixel_values max_tokens
              temperature rng) := by
  intro c hc hceos
  simp only [decode_calls, generate_run] at hc ⊢
  rcases decode_loop_shape M P.eos_token_id temperature (max_tokens - 1).toNat
      (sample M.categorical (lastRow (M.full input_ids pixel_values).1) temperature rng).1
      (M.full input_ids pixel_values).2
      (sample M.categorical (lastRow (M.full input_ids pixel_values).1) temperature rng).2
    with ⟨hall, _⟩ | ⟨cs, cl, hcs, hcl, hall, hts⟩
  · exact absurd hceos (hall c hc)
  · have hccl : c = cl := by
      rw [hcs] at hc
      rcases List.mem_append.mp hc with hmem | hmem
      · exact absurd hceos (hall c hmem)
      · exact List.mem_singleton.mp hmem
    subst hccl
    refine ⟨?_, ?_, ?_, rfl⟩
    · rw [hcs]
      exact List.getLast?_concat _
    · simp only [generated_tokens, generate_run]
      rw [hcs, List.dropLast_concat, hts]
      simp [prefill_token]
    · rw [hcs, List.dropLast_concat]
      intro hmem
      rcases List.mem_map.mp hmem with ⟨c', hc', hsam⟩
      exact hall c' hc' hsam

/-- **C3** witness: with the demo model and end-of-sequence id 0, the first
decode iteration samples 0, the loop stops there with nothing appended, and
the output is the prefill token alone. -/
theorem generate_text_eos_in_loop_witness :
    ((⟨1, 0, [[3, 1]], 1, 0⟩ : DecodeCall Nat)
        ∈ decode_calls demoModel demoProcessorEosLoop [1] () 5 0 ()) ∧
    (DecodeCall.sampled ⟨1, 0, [[3, 1]], 1, 0⟩
        = demoProcessorEosLoop.eos_token_id) ∧
    ((decode_calls demoModel demoProcessorEosLoop [1] () 5 0 ()).getLast?
        = some ⟨1, 0, [[3, 1]], 1, 0⟩ ∧
      generated_tokens demoModel demoProcessorEosLoop [1] () 5 0 ()
          = prefill_token demoModel [1] () 0 ()
            :: ((decode_calls demoModel demoProcessorEosLoop [1] () 5 0
                ()).dropLast.map DecodeCall.sampled) ∧
      demoProcessorEosLoop.eos_token_id ∉
          ((decode_calls demoModel demoProcessorEosLoop [1] () 5 0
            ()).dropLast.map DecodeCall.sampled) ∧
      generate_text demoModel demoProcessorEosLoop [1] () 5 0 ()
          = demoProcessorEosLoop.decode
              (generated_tokens demoModel demoProcessorEosLoop [1] () 5 0 ())) :=
  ⟨by decide, by decide,
    generate_text_eos_in_loop demoModel demoProcessorEosLoop [1] () 5 0 ()
      ⟨1, 0, [[3, 1]], 1, 0⟩ (by decide) (by decide)⟩

/-- **C5**: every decode-loop iteration invokes `language_model` with exactly
its recorded single-token and cache arguments; the first iteration receives
the prefill-sampled token and the cache returned by the prefill model call;
and each later iteration receives the token sampled by and the cache
returned from the immediately preceding call — the accumulated prefix is
never reprocessed. -/
theorem generate_text_cache_threading {Cache Pix Rng : Type}
    (M : ModelFuns Cache Pix Rng) (P : Processor) (input_ids : List Int)
    (pixel_values : Pix) (max_tokens : Int) (temperature : ℚ) (rng : Rng) :
    (∀ c ∈ decode_calls M P input_ids pixel_values max_tokens temperature rng,
        (c.logitsOut, c.cacheOut) = M.language_model c.tokenArg c.cacheArg) ∧
    (∀ c₀, (decode_calls M P input_ids pixel_values max_tokens
          temperature rng).head? = some c₀ →
        c₀.tokenArg = prefill_token M input_ids pixel_values temperature rng ∧
        c₀.cacheArg = (M.full input_ids pixel_values).2) ∧
    List.Chain' (fun a b => b.tokenArg = a.sampled ∧ b.cacheArg = a.cacheOut)
      (decode_calls M P input_ids pixel_values max_tokens temperature rng) := by
  simp only [decode_calls, generate_run, prefill_token]
  exact decode_loop_calls M P.eos_token_id temperature _ _ _ _

/-- **C5** witness at the demo model with `max_tokens = 3`. -/
theorem generate_text_cache_threading_witness :
    (∀ c ∈ decode_calls demoModel demoProcessor [1] () 3 0 (),
        (c.logitsOut, c.cacheOut) = demoModel.language_model c.tokenArg c.cacheArg) ∧
    (∀ c₀, (decode_calls demoModel demoProcessor [1] () 3 0 ()).head? = some c₀ →
        c₀.tokenArg = prefill_token demoModel [1] () 0 () ∧
        c₀.cacheArg = (demoModel.full [1] ()).2) ∧
    List.Chain' (fun a b => b.tokenArg = a.sampled ∧ b.cacheArg = a.cacheOut)
      (decode_calls demoModel demoProcessor [1] () 3 0 ()) :=
  generate_text_cache_threading demoModel demoProcessor [1] () 3 0 ()

/-- **C4**: at temperature 0, `sample` is deterministic — its result does not
depend on the random source or generator state — and it returns the index of
the maximum logit, ties broken by first occurrence: every entry is at most
the entry at the returned index, and every earlier entry is strictly
smaller. -/
theorem sample_temp_zero_argmax {Rng : Type}
    (cat cat' : List ℚ → Rng → Int × Rng) (l : List ℚ) (hl : l ≠ [])
    (r r' : Rng) :
    (sample cat l 0 r).1 = (sample cat' l 0 r').1 ∧
    (sample cat l 0 r).1 = (mx_argmax l : Int) ∧
    mx_argmax l < l.length ∧
    (∀ j, j < l.length → l.getD j 0 ≤ l.getD (mx_argmax l) 0) ∧
    (∀ j, j < mx_argmax l → l.getD j 0 < l.getD (mx_argmax l) 0) := by
  refine ⟨by simp [sample], by simp [sample], mx_argmax_lt_length l hl, ?_, ?_⟩
  · intro j hj
    rw [getD_mx_argmax l hl]
    have hmem : l.getD j 0 ∈ l := by
      rw [List.getD_eq_getElem l 0 hj]
      exact List.getElem_mem hj
    exact le_listMax l _ hmem
  · intro j hj
    rw [getD_mx_argmax l hl]
    exact getD_lt_of_lt_mx_argmax l j hj

/-- **C4** witness on the logits `[1, 3, 3, 2]`: both invocations return
index 1, the first of the two tied maxima. -/
theorem sample_temp_zero_argmax_witness :
    ([1, 3, 3, 2] : List ℚ) ≠ [] ∧
    (sample (fun _ r => (7, r)) [1, 3, 3, 2] 0 ()).1
        = (sample (fun _ r => (8, r)) [1, 3, 3, 2] 0 ()).1 ∧
    (sample (fun _ r => (7, r)) [1, 3, 3, 2] 0 ()).1 = 1 :=
  ⟨by decide,
    (sample_temp_zero_argmax (fun _ r => (7, r)) (fun _ r => (8, r))
      [1, 3, 3, 2] (by decide) () ()).1,
    ((sample_temp_zero_argmax (fun _ r => (7, r)) (fun _ r => (8, r))
      [1, 3, 3, 2] (by decide) () ()).2.1).trans (by decide)⟩

/-! ## Claim theorems about input preparation -/

/-- **C6**: under model type `"nanoLlava"`, for a prompt whose split on the
image placeholder yields exactly the two segments `l` and `r` (i.e. the
prompt contains exactly one `"<image>"` marker), `prepare_inputs` returns
the left segment's tokens, then the single sentinel id `-200`, then the
right segment's tokens: the length is `len(left) + 1 + len(right)` and the
entry at position `len(left)` is `-200`. -/
theorem prepare_inputs_single_marker {Img Pix : Type}
    (processor : String → List Int) (image_processor : Img → Pix)
    (joint : String → Img → List Int × Pix) (image : Img)
    (prompt l r : String) (h : str_split prompt "<image>" = [l, r]) :
    prepare_inputs "nanoLlava" processor image_processor joint image prompt
        = some (processor l ++ [-200] ++ processor r, image_processor image) ∧
    (processor l ++ [-200] ++ processor r).length
        = (processor l).length + 1 + (processor r).length ∧
    (processor l ++ [-200] ++ processor r).getD (processor l).length 0 = -200 := by
  refine ⟨?_, ?_, ?_⟩
  · simp [prepare_inputs, h]
  · simp
    omega
  · rw [List.append_assoc, List.getD_append_right _ _ _ _ (le_refl _)]
    simp

/-- **C6** witness on the prompt `"ab<image>cd"`. -/
theorem prepare_inputs_single_marker_witness :
    str_split "ab<image>cd" "<image>" = ["ab", "cd"] ∧
    (prepare_inputs "nanoLlava" demoTokenize demoImageProc demoJoint ()
          "ab<image>cd"
        = some (demoTokenize "ab" ++ [-200] ++ demoTokenize "cd", ()) ∧
      (demoTokenize "ab" ++ [-200] ++ demoTokenize "cd").length
          = (demoTokenize "ab").length + 1 + (demoTokenize "cd").length ∧
      (demoTokenize "ab" ++ [-200] ++ demoTokenize "cd").getD
          (demoTokenize "ab").length 0 = -200) :=
  ⟨by decide,
    (prepare_inputs_single_marker demoTokenize demoImageProc demoJoint ()
      "ab<image>cd" "ab" "cd" (by decide)).1,
    (prepare_inputs_single_marker demoTokenize demoImageProc demoJoint ()
      "ab<image>cd" "ab" "cd" (by decide)).2.1,
    (prepare_inputs_single_marker demoTokenize demoImageProc demoJoint ()
      "ab<image>cd" "ab" "cd" (by decide)).2.2⟩

/-- **C9**: under model type `"nanoLlava"`, a prompt whose split yields three
or more segments (two or more `"<image>"` markers) does not make
`prepare_inputs` fail: it returns the tokens of the first segment, the
sentinel, and the tokens of the second segment, silently discarding every
segment after the second. -/
theorem prepare_inputs_many_markers {Img Pix : Type}
    (processor : String → List Int) (image_processor : Img → Pix)
    (joint : String → Img → List Int × Pix) (image : Img)
    (prompt c0 c1 c2 : String) (rest : List String)
    (h : str_split prompt "<image>" = c0 :: c1 :: c2 :: rest) :
    prepare_inputs "nanoLlava" processor image_processor joint image prompt
        = some (processor c0 ++ [-200] ++ processor c1, image_processor image) := by
  simp [prepare_inputs, h]

/-- **C9** witness on the prompt `"a<image>b<image>c"`: the text `"c"` after
the second marker is discarded. -/
theorem prepare_inputs_many_markers_witness :
    str_split "a<image>b<image>c" "<image>" = ["a", "b", "c"] ∧
    prepare_inputs "nanoLlava" demoTokenize demoImageProc demoJoint ()
        "a<image>b<image>c"
      = some (demoTokenize "a" ++ [-200] ++ demoTokenize "b", ()) :=
  ⟨by decide,
    prepare_inputs_many_markers demoTokenize demoImageProc demoJoint ()
      "a<image>b<image>c" "a" "b" "c" [] (by decide)⟩

/-! ## Claim theorems about image loading and the chat-template step -/

/-- **C7**: `load_image` raises exactly when no decoded image can be
produced — for an `http(s)://` source when the request/status check fails or
the response body cannot be decoded, for an existing file when decoding
fails, and when the source is neither an `http(s)://` URL nor an existing
file — and otherwise returns the decoded image produced by the collaborator
for the branch taken. -/
theorem load_image_error_iff {Raw Img : Type} (env : ImageEnv Raw Img)
    (src : String) :
    (isError (load_image env src) = true ↔
      ((isUrl src = true ∧
          ((∃ e, env.requests_get src = Except.error e) ∨
            (∃ raw, env.requests_get src = Except.ok raw ∧
              ∃ e, env.image_open_raw raw = Except.error e))) ∨
        (isUrl src = false ∧ env.is_file src = true ∧
          ∃ e, env.image_open_file src = Except.error e) ∨
        (isUrl src = false ∧ env.is_file src = false))) ∧
    (∀ img, load_image env src = Except.ok img →
        (isUrl src = true ∧ ∃ raw, env.requests_get src = Except.ok raw ∧
            env.image_open_raw raw = Except.ok img) ∨
        (isUrl src = false ∧ env.is_file src = true ∧
            env.image_open_file src = Except.ok img)) := by
  by_cases hu : isUrl src = true
  · cases hg : env.requests_get src with
    | error e => simp [load_image, isError, hu, hg]
    | ok raw =>
      cases ho : env.image_open_raw raw with
      | error e2 => simp [load_image, isError, hu, hg, ho]
      | ok img0 => simp [load_image, isError, hu, hg, ho]
  · have hu' : isUrl src = false := by simpa using hu
    cases hf : env.is_file src with
    | true =>
      cases hof : env.image_open_file src with
      | error e => simp [load_image, isError, hu', hf, hof]
      | ok img0 => simp [load_image, isError, hu', hf, hof]
    | false => simp [load_image, isError, hu', hf]

/-- **C7** witness: a source that is neither a URL nor an existing file is
rejected. -/
theorem load_image_error_iff_witness :
    isError (load_image demoImageEnv "abc") = true :=
  (load_image_error_iff demoImageEnv "abc").1.mpr
    (Or.inr (Or.inr ⟨by decide, rfl⟩))

/-- **C8**: when the processor exposes neither a `chat_template` attribute
nor a `tokenizer` attribute, `main` raises no error — the `ValueError` is
constructed but never raised — and proceeds to prepare inputs with the
unformatted prompt unchanged. -/
theorem main_no_template_proceeds {Img Pix : Type} (p : ChatProcessor)
    (model_type : String) (processor : String → List Int)
    (image_processor : Img → Pix) (joint : String → Img → List Int × Pix)
    (image : Img) (prompt : String)
    (h1 : p.has_chat_template = false) (h2 : p.has_tokenizer = false) :
    format_prompt p prompt = Except.ok prompt ∧
    main_prepare p model_type processor image_processor joint image prompt
        = prepare_inputs model_type processor image_processor joint image prompt := by
  constructor
  · simp [format_prompt, h1, h2]
  · simp [main_prepare, format_prompt, h1, h2]

/-- **C8** witness on a processor with neither attribute. -/
theorem main_no_template_proceeds_witness :
    demoChatProcessor.has_chat_template = false ∧
    demoChatProcessor.has_tokenizer = false ∧
    (format_prompt demoChatProcessor "hi" = Except.ok "hi" ∧
      main_prepare demoChatProcessor "nanoLlava" demoTokenize demoImageProc
          demoJoint () "hi"
        = prepare_inputs "nanoLlava" demoTokenize demoImageProc demoJoint () "hi") :=
  ⟨rfl, rfl,
    main_no_template_proceeds demoChatProcessor "nanoLlava" demoTokenize
      demoImageProc demoJoint () "hi" rfl rfl⟩

end MlxVlm
